import Mathlib

/-!
Verification development for the fineftp-server library.

The repository ships the session/server headers (`ftp_session.h`, the
`FtpServer` facade and the callback type); the implementation bodies live in
translation units that are not part of the sampled sources.  Every behavioural
definition below is therefore modelled from the specification document, which
describes the user database, the path mapper, the session state machine with
its per-command reply codes, and the server facade.  Paths are modelled as
strings over the virtual FTP path space, file contents as lists of bytes
(naturals), and the filesystem as a pair of lookup functions.
-/

namespace FineFtp

/-! ### Path primitives (Path Mapper, spec section 4.2) -/

/-- Splits a list of characters on the slash character, accumulating the
current segment in reverse.  Structural replacement for the string split used
by the path mapper. -/
def splitSlashAux : List Char → List Char → List String
  | [], cur => [String.mk cur.reverse]
  | c :: rest, cur =>
    if c = '/' then String.mk cur.reverse :: splitSlashAux rest []
    else splitSlashAux rest (c :: cur)

/-- Modelled from the spec: the path mapper splits a virtual FTP path on the
separator character.  The implementation of `FtpSession::toAbsoluteFtpPath`
is not among the sampled sources. -/
def splitSlash (s : String) : List String :=
  splitSlashAux s.data []

/-- Modelled from the spec: an FTP path is absolute when it begins with the
separator character. -/
def isAbsolutePath (s : String) : Bool :=
  match s.data with
  | [] => false
  | c :: _ => c = '/'

/-- A path segment is plain when it is neither empty nor one of the two
special dot segments. -/
def plainSeg (s : String) : Prop :=
  s ≠ "" ∧ s ≠ "." ∧ s ≠ ".."

instance (s : String) : Decidable (plainSeg s) := by
  unfold plainSeg
  infer_instance

/-- Modelled from the spec: one normalization step of
`FtpSession::toAbsoluteFtpPath` — drop empty and dot segments, pop the
accumulator on a dot-dot segment (clamped at root because popping the empty
accumulator yields the empty accumulator), push any plain segment. -/
def normStep (acc : List String) (seg : String) : List String :=
  if seg = "" ∨ seg = "." then acc
  else if seg = ".." then acc.dropLast
  else acc ++ [seg]

/-- Modelled from the spec: full left-to-right normalization of a segment
list, starting from the root. -/
def normalizeSegments (segs : List String) : List String :=
  segs.foldl normStep []

/-- Prepends a slash to every segment and concatenates. -/
def joinSegsAux : List String → String
  | [] => ""
  | s :: rest => "/" ++ s ++ joinSegsAux rest

/-- Renders a normalized segment list as an absolute virtual FTP path: the
empty list is the root, otherwise each segment is preceded by a slash. -/
def joinFtp (segs : List String) : String :=
  match segs with
  | [] => "/"
  | _ :: _ => joinSegsAux segs

/-- Modelled from the spec: the segment list of the absolute virtual FTP path
obtained from a working directory and a client-supplied path argument — an
absolute argument is used as-is, a relative one is joined to the working
directory, and the result is normalized. -/
def absSegments (wd input : String) : List String :=
  normalizeSegments (splitSlash (if isAbsolutePath input then input else wd ++ "/" ++ input))

/-- Modelled from the spec: `FtpSession::toAbsoluteFtpPath`, rendered as a
string. -/
def toAbsoluteFtpPath (wd input : String) : String :=
  joinFtp (absSegments wd input)

/-- Modelled from the spec: `FtpSession::toLocalPath` translates "/" to the
user's root and joins each segment of the normalized virtual path with the
host separator.  We model local paths at the granularity of their component
lists: the user's root contributes `rootComps`, followed by the segments of
the mapped virtual path. -/
def toLocalComponents (rootComps : List String) (wd input : String) : List String :=
  rootComps ++ absSegments wd input

/-- Modelled from the spec: the canonical form of a local path resolves dot
and dot-dot components, exactly as the normalization of the path mapper
does. -/
def canonicalComponents (comps : List String) : List String :=
  normalizeSegments comps

/-- Modelled from the spec: `FtpSession::createQuotedFtpPath` doubles every
internal quote character. -/
def quoteCharsAux : List Char → List Char
  | [] => []
  | c :: rest =>
    if c = '"' then '"' :: '"' :: quoteCharsAux rest
    else c :: quoteCharsAux rest

/-- Modelled from the spec: RFC 959 quoting for 257 replies — wrap in double
quotes, escape internal quotes by doubling them. -/
def createQuotedFtpPath (p : String) : String :=
  "\"" ++ String.mk (quoteCharsAux p.data) ++ "\""

/-! ### Numeric parsing (used by the REST command) -/

/-- Decimal digit test on characters. -/
def isDigitChar (c : Char) : Bool :=
  '0' ≤ c && c ≤ '9'

/-- Accumulating decimal parser over a character list; fails on the first
non-digit character. -/
def parseUIntAux : List Char → Nat → Option Nat
  | [], acc => some acc
  | c :: rest, acc =>
    if isDigitChar c then parseUIntAux rest (acc * 10 + (c.toNat - '0'.toNat))
    else none

/-- Modelled from the spec: the REST handler parses its parameter as an
unsigned decimal integer; the empty string and strings with non-digit
characters are malformed. -/
def parseUInt (s : String) : Option Nat :=
  match s.data with
  | [] => none
  | l => parseUIntAux l 0

/-! ### User database (spec section 4.1, `FtpServer::addUser`) -/

/-- Per-user permission bitmask, one flag per spec bit. -/
structure Permissions where
  fileRead : Bool
  fileWrite : Bool
  fileAppend : Bool
  fileDelete : Bool
  fileRename : Bool
  dirList : Bool
  dirCreate : Bool
  dirDelete : Bool
  dirRename : Bool
deriving DecidableEq

/-- The all-permissions value. -/
def Permissions.all : Permissions :=
  ⟨true, true, true, true, true, true, true, true, true⟩

/-- A registered user: password, local root and permissions. -/
structure UserRecord where
  password : String
  localRoot : String
  permissions : Permissions
deriving DecidableEq

/-- Modelled from the spec: the usernames "anonymous" and "ftp" are the two
well-known anonymous aliases. -/
def isAnonymousName (name : String) : Bool :=
  name = "anonymous" || name = "ftp"

/-- Modelled from the spec: the in-memory user database — the optional
anonymous user (shared by both aliases) and the list of named users. -/
structure UserDatabase where
  anonymousUser : Option UserRecord
  users : List (String × UserRecord)
deriving DecidableEq

/-- The empty user database. -/
def emptyDatabase : UserDatabase :=
  ⟨none, []⟩

/-- Modelled from the spec: `FtpServer::addUser` inserts the user if the
username is absent and returns false otherwise; either anonymous alias
reserves the shared anonymous slot. -/
def addUser (db : UserDatabase) (name password localRoot : String) (perms : Permissions) :
    Bool × UserDatabase :=
  if isAnonymousName name then
    match db.anonymousUser with
    | some _ => (false, db)
    | none => (true, { db with anonymousUser := some ⟨password, localRoot, perms⟩ })
  else
    match db.users.lookup name with
    | some _ => (false, db)
    | none => (true, { db with users := (name, ⟨password, localRoot, perms⟩) :: db.users })

/-- Modelled from the spec: `FtpServer::addUserAnonymous` adds the anonymous
user with an empty password. -/
def addUserAnonymous (db : UserDatabase) (localRoot : String) (perms : Permissions) :
    Bool × UserDatabase :=
  addUser db "anonymous" "" localRoot perms

/-- Modelled from the spec: authentication — case-sensitive username match,
anonymous aliases succeed regardless of password, named users require exact
password equality. -/
def authenticate (db : UserDatabase) (name password : String) : Option UserRecord :=
  if isAnonymousName name then db.anonymousUser
  else
    match db.users.lookup name with
    | some u => if u.password = password then some u else none
    | none => none

/-! ### Filesystem model (Filesystem Adapter, spec section 4.3) -/

/-- Modelled from the spec: the filesystem visible under the logged-in user's
root, keyed by absolute virtual FTP paths.  Directories are recorded by a
membership test, regular files by their byte contents. -/
structure Filesystem where
  isDir : String → Bool
  fileContents : String → Option (List Nat)

/-- Creates or truncates a regular file at the given path. -/
def setFile (fs : Filesystem) (path : String) (contents : List Nat) : Filesystem :=
  { fs with fileContents := fun p => if p = path then some contents else fs.fileContents p }

/-- Removes a regular file. -/
def removeFile (fs : Filesystem) (path : String) : Filesystem :=
  { fs with fileContents := fun p => if p = path then none else fs.fileContents p }

/-- Adds a directory. -/
def addDir (fs : Filesystem) (path : String) : Filesystem :=
  { fs with isDir := fun p => if p = path then true else fs.isDir p }

/-- Removes a directory. -/
def removeDir (fs : Filesystem) (path : String) : Filesystem :=
  { fs with isDir := fun p => if p = path then false else fs.isDir p }

/-- Renames one entry (file or directory) from the source path to the
destination path. -/
def renameEntry (fs : Filesystem) (src dst : String) : Filesystem :=
  { isDir := fun p => if p = dst then fs.isDir src else if p = src then false else fs.isDir p,
    fileContents := fun p =>
      if p = dst then fs.fileContents src
      else if p = src then none
      else fs.fileContents p }

/-! ### Session state (spec section 3, `FtpSession` member variables) -/

/-- Modelled from the spec: the per-connection session state mirrored from
the `FtpSession` members — logged-in user, login candidate, working
directory, pending rename source, restart offset, transfer type flag and the
shutdown flag set by QUIT. -/
structure Session where
  user : Option UserRecord
  usernameForLogin : Option String
  workingDirectory : String
  renameFrom : Option String
  restartOffset : Nat
  dataTypeBinary : Bool
  shutdownRequested : Bool
deriving DecidableEq

/-- The state of a freshly accepted session: not logged in, working directory
at root, ASCII type, zero restart offset. -/
def initialSession : Session :=
  ⟨none, none, "/", none, 0, false, false⟩

/-- The outcome of handling one command: the successor session, the successor
filesystem, the reply code and text, and the payload sent on the data channel
when the command streamed one. -/
structure CmdResult where
  session : Session
  fs : Filesystem
  code : Nat
  text : String
  sent : Option (List Nat)

/-- Builds a plain reply that changes neither filesystem nor data channel. -/
def ftpReply (s : Session) (fs : Filesystem) (code : Nat) (text : String) : CmdResult :=
  ⟨s, fs, code, text, none⟩

/-- The 530 reply sent by every authentication-requiring handler when no user
is logged in. -/
def notLoggedInReply (s : Session) (fs : Filesystem) : CmdResult :=
  ftpReply s fs 530 "Not logged in"

/-! ### Command handlers (Session State Machine, spec section 4.5) -/

/-- Modelled from the spec: USER — an anonymous alias logs in immediately
when an anonymous user is registered, any other name becomes the login
candidate and is answered 331 even when unknown. -/
def handleUSER (db : UserDatabase) (fs : Filesystem) (s : Session) (param : String) : CmdResult :=
  if isAnonymousName param ∧ db.anonymousUser.isSome then
    ftpReply { s with user := db.anonymousUser, usernameForLogin := none } fs 230 "Login successful"
  else
    ftpReply { s with usernameForLogin := some param, user := none } fs 331 "Password required"

/-- Modelled from the spec: PASS — authenticate the stored candidate; on
failure the state returns to awaiting a USER command. -/
def handlePASS (db : UserDatabase) (fs : Filesystem) (s : Session) (param : String) : CmdResult :=
  match s.usernameForLogin with
  | none => ftpReply { s with user := none } fs 530 "Login failed"
  | some name =>
    match authenticate db name param with
    | some u =>
      ftpReply { s with user := some u, usernameForLogin := none } fs 230 "Login successful"
    | none =>
      ftpReply { s with user := none, usernameForLogin := none } fs 530 "Login failed"

/-- Modelled from the spec: ACCT is answered 202. -/
def handleACCT (fs : Filesystem) (s : Session) : CmdResult :=
  ftpReply s fs 202 "Not needed"

/-- Modelled from the spec: `FtpSession::executeCWD` — resolve the argument
against the working directory; when the target is an existing directory the
working directory is updated and 250 is replied, otherwise 550. -/
def executeCWD (fs : Filesystem) (s : Session) (param : String) : CmdResult :=
  if fs.isDir (toAbsoluteFtpPath s.workingDirectory param) then
    ftpReply { s with workingDirectory := toAbsoluteFtpPath s.workingDirectory param } fs 250
      "Working directory changed"
  else
    ftpReply s fs 550 "Failed to change directory"

/-- Modelled from the spec: CWD requires a logged-in user. -/
def handleCWD (fs : Filesystem) (s : Session) (param : String) : CmdResult :=
  match s.user with
  | none => notLoggedInReply s fs
  | some _ => executeCWD fs s param

/-- Modelled from the spec: CDUP is CWD with a dot-dot argument. -/
def handleCDUP (fs : Filesystem) (s : Session) : CmdResult :=
  match s.user with
  | none => notLoggedInReply s fs
  | some _ => executeCWD fs s ".."

/-- Modelled from the spec: REIN logs the user out and resets every transfer
parameter; before login it is among the commands rejected with 530. -/
def handleREIN (fs : Filesystem) (s : Session) : CmdResult :=
  match s.user with
  | none => notLoggedInReply s fs
  | some _ => ftpReply initialSession fs 220 "Service ready"

/-- Modelled from the spec: QUIT replies 221 and marks the session for
shutdown. -/
def handleQUIT (fs : Filesystem) (s : Session) : CmdResult :=
  ftpReply { s with shutdownRequested := true } fs 221 "Goodbye"

/-- Modelled from the spec: PORT records the active endpoint and replies 200;
the endpoint itself is outside the claims and not tracked. -/
def handlePORT (fs : Filesystem) (s : Session) : CmdResult :=
  match s.user with
  | none => notLoggedInReply s fs
  | some _ => ftpReply s fs 200 "OK"

/-- Modelled from the spec: PASV binds an acceptor and replies 227; the
acceptor endpoint is outside the claims and not tracked. -/
def handlePASV (fs : Filesystem) (s : Session) : CmdResult :=
  match s.user with
  | none => notLoggedInReply s fs
  | some _ => ftpReply s fs 227 "Entering Passive Mode"

/-- Modelled from the spec: TYPE accepts I and A (both binary on the wire)
and answers 504 for any other parameter. -/
def handleTYPE (fs : Filesystem) (s : Session) (param : String) : CmdResult :=
  match s.user with
  | none => notLoggedInReply s fs
  | some _ =>
    if param = "I" then ftpReply { s with dataTypeBinary := true } fs 200 "Switching to binary"
    else if param = "A" then
      ftpReply { s with dataTypeBinary := false } fs 200 "Switching to ASCII"
    else ftpReply s fs 504 "Unsupported type"

/-- Modelled from the spec: STRU accepts only F. -/
def handleSTRU (fs : Filesystem) (s : Session) (param : String) : CmdResult :=
  match s.user with
  | none => notLoggedInReply s fs
  | some _ =>
    if param = "F" then ftpReply s fs 200 "OK" else ftpReply s fs 504 "Unsupported structure"

/-- Modelled from the spec: MODE accepts only S. -/
def handleMODE (fs : Filesystem) (s : Session) (param : String) : CmdResult :=
  match s.user with
  | none => notLoggedInReply s fs
  | some _ =>
    if param = "S" then ftpReply s fs 200 "OK" else ftpReply s fs 504 "Unsupported mode"

/-- Modelled from the spec: RETR streams the file from the restart offset
with FileRead permission, then clears the offset; the 150/226 reply pair of a
successful transfer is collapsed to its terminating 226. -/
def handleRETR (fs : Filesystem) (s : Session) (param : String) : CmdResult :=
  match s.user with
  | none => notLoggedInReply s fs
  | some u =>
    if u.permissions.fileRead then
      match fs.fileContents (toAbsoluteFtpPath s.workingDirectory param) with
      | some contents =>
        { session := { s with restartOffset := 0 }, fs := fs, code := 226,
          text := "Transfer complete", sent := some (contents.drop s.restartOffset) }
      | none => ftpReply s fs 550 "File not found"
    else ftpReply s fs 550 "Permission denied"

/-- Modelled from the spec: SIZE is gated by the FileRead permission bit
(permission table: FileRead allows RETR and SIZE on files, a permission
failure replying 550); with the permission it answers 504 in ASCII type, 213
with the byte count for a regular file in binary type, and 550 otherwise. -/
def handleSIZE (fs : Filesystem) (s : Session) (param : String) : CmdResult :=
  match s.user with
  | none => notLoggedInReply s fs
  | some u =>
    if u.permissions.fileRead then
      if s.dataTypeBinary = false then ftpReply s fs 504 "SIZE not allowed in ASCII mode"
      else
        match fs.fileContents (toAbsoluteFtpPath s.workingDirectory param) with
        | some contents => ftpReply s fs 213 (toString contents.length)
        | none => ftpReply s fs 550 "Not a regular file"
    else ftpReply s fs 550 "Permission denied"

/-- Modelled from the spec: STOR truncates or creates at the restart offset
with FileWrite permission and clears the offset afterwards. -/
def handleSTOR (fs : Filesystem) (s : Session) (param : String) (incoming : List Nat) :
    CmdResult :=
  match s.user with
  | none => notLoggedInReply s fs
  | some u =>
    if u.permissions.fileWrite then
      { session := { s with restartOffset := 0 },
        fs := setFile fs (toAbsoluteFtpPath s.workingDirectory param)
          (((fs.fileContents (toAbsoluteFtpPath s.workingDirectory param)).getD []).take
            s.restartOffset ++ incoming),
        code := 226, text := "Transfer complete", sent := none }
    else ftpReply s fs 550 "Permission denied"

/-- Modelled from the spec: APPE appends with FileAppend permission and
clears the restart offset. -/
def handleAPPE (fs : Filesystem) (s : Session) (param : String) (incoming : List Nat) :
    CmdResult :=
  match s.user with
  | none => notLoggedInReply s fs
  | some u =>
    if u.permissions.fileAppend then
      { session := { s with restartOffset := 0 },
        fs := setFile fs (toAbsoluteFtpPath s.workingDirectory param)
          ((fs.fileContents (toAbsoluteFtpPath s.workingDirectory param)).getD [] ++ incoming),
        code := 226, text := "Transfer complete", sent := none }
    else ftpReply s fs 550 "Permission denied"

/-- Modelled from the spec: STOU stores under a generated unique name;
the generation policy is unspecified in the source, modelled with a fixed
fresh name in the working directory. -/
def handleSTOU (fs : Filesystem) (s : Session) (incoming : List Nat) : CmdResult :=
  match s.user with
  | none => notLoggedInReply s fs
  | some u =>
    if u.permissions.fileWrite then
      { session := { s with restartOffset := 0 },
        fs := setFile fs (toAbsoluteFtpPath s.workingDirectory "stou_file") incoming,
        code := 226, text := "Transfer complete", sent := none }
    else ftpReply s fs 550 "Permission denied"

/-- Modelled from the spec: ALLO is superfluous and answered 202. -/
def handleALLO (fs : Filesystem) (s : Session) : CmdResult :=
  match s.user with
  | none => notLoggedInReply s fs
  | some _ => ftpReply s fs 202 "Not needed"

/-- Modelled from the spec: `FtpSession::handleFtpCommandREST` parses the
parameter as an unsigned integer, stores it as the restart offset and replies
350; a malformed parameter is a bad argument. -/
def handleREST (fs : Filesystem) (s : Session) (param : String) : CmdResult :=
  match s.user with
  | none => notLoggedInReply s fs
  | some _ =>
    match parseUInt param with
    | some n => ftpReply { s with restartOffset := n } fs 350 "Restarting at offset"
    | none => ftpReply s fs 501 "Invalid offset"

/-- Modelled from the spec: `FtpSession::checkIfPathIsRenamable` — the path
must exist and the user must hold the rename permission matching its kind. -/
def pathIsRenamable (fs : Filesystem) (u : UserRecord) (target : String) : Bool :=
  if (fs.fileContents target).isSome then u.permissions.fileRename
  else if fs.isDir target then u.permissions.dirRename
  else false

/-- Modelled from the spec: RNFR stores the rename source and replies 350
when the path is renamable, 550 otherwise. -/
def handleRNFR (fs : Filesystem) (s : Session) (param : String) : CmdResult :=
  match s.user with
  | none => notLoggedInReply s fs
  | some u =>
    if pathIsRenamable fs u (toAbsoluteFtpPath s.workingDirectory param) then
      ftpReply { s with renameFrom := some (toAbsoluteFtpPath s.workingDirectory param) } fs 350
        "Ready for destination"
    else ftpReply s fs 550 "Cannot rename"

/-- Modelled from the spec: `FtpSession::handleFtpCommandRNTO` — with a
stored rename source the entry is renamed and 250 replied, without one the
command is out of sequence and answered 503. -/
def handleRNTO (fs : Filesystem) (s : Session) (param : String) : CmdResult :=
  match s.user with
  | none => notLoggedInReply s fs
  | some _ =>
    match s.renameFrom with
    | some src =>
      { session := { s with renameFrom := none },
        fs := renameEntry fs src (toAbsoluteFtpPath s.workingDirectory param),
        code := 250, text := "Renamed", sent := none }
    | none => ftpReply s fs 503 "RNFR required before RNTO"

/-- Modelled from the spec: ABOR with no transfer in flight (the only case in
this sequential model) is answered 225. -/
def handleABOR (fs : Filesystem) (s : Session) : CmdResult :=
  match s.user with
  | none => notLoggedInReply s fs
  | some _ => ftpReply s fs 225 "No transfer to abort"

/-- Modelled from the spec: DELE removes a regular file with FileDelete
permission. -/
def handleDELE (fs : Filesystem) (s : Session) (param : String) : CmdResult :=
  match s.user with
  | none => notLoggedInReply s fs
  | some u =>
    if u.permissions.fileDelete then
      match fs.fileContents (toAbsoluteFtpPath s.workingDirectory param) with
      | some _ =>
        { session := s, fs := removeFile fs (toAbsoluteFtpPath s.workingDirectory param),
          code := 250, text := "File deleted", sent := none }
      | none => ftpReply s fs 550 "File not found"
    else ftpReply s fs 550 "Permission denied"

/-- Modelled from the spec: RMD removes a directory with DirDelete
permission; the non-empty test is outside this model's filesystem
granularity. -/
def handleRMD (fs : Filesystem) (s : Session) (param : String) : CmdResult :=
  match s.user with
  | none => notLoggedInReply s fs
  | some u =>
    if u.permissions.dirDelete then
      if fs.isDir (toAbsoluteFtpPath s.workingDirectory param) then
        { session := s, fs := removeDir fs (toAbsoluteFtpPath s.workingDirectory param),
          code := 250, text := "Directory removed", sent := none }
      else ftpReply s fs 550 "Directory not found"
    else ftpReply s fs 550 "Permission denied"

/-- Modelled from the spec: MKD creates a directory with DirCreate permission
and quotes the created path in its 257 reply. -/
def handleMKD (fs : Filesystem) (s : Session) (param : String) : CmdResult :=
  match s.user with
  | none => notLoggedInReply s fs
  | some u =>
    if u.permissions.dirCreate then
      if fs.isDir (toAbsoluteFtpPath s.workingDirectory param) then
        ftpReply s fs 550 "Already exists"
      else
        { session := s, fs := addDir fs (toAbsoluteFtpPath s.workingDirectory param),
          code := 257,
          text := createQuotedFtpPath (toAbsoluteFtpPath s.workingDirectory param),
          sent := none }
    else ftpReply s fs 550 "Permission denied"

/-- Modelled from the spec: PWD replies 257 with the quoted working
directory. -/
def handlePWD (fs : Filesystem) (s : Session) : CmdResult :=
  match s.user with
  | none => notLoggedInReply s fs
  | some _ => ftpReply s fs 257 (createQuotedFtpPath s.workingDirectory)

/-- Modelled from the spec: LIST streams a directory listing with DirList
permission; the listing payload format is outside the claims and abstracted
to an empty payload. -/
def handleLIST (fs : Filesystem) (s : Session) (param : String) : CmdResult :=
  match s.user with
  | none => notLoggedInReply s fs
  | some u =>
    if u.permissions.dirList then
      if fs.isDir (if param = "" then s.workingDirectory
          else toAbsoluteFtpPath s.workingDirectory param) then
        { session := s, fs := fs, code := 226, text := "Done", sent := some [] }
      else ftpReply s fs 550 "Directory not found"
    else ftpReply s fs 550 "Permission denied"

/-- Modelled from the spec: NLST is LIST with a bare-name payload. -/
def handleNLST (fs : Filesystem) (s : Session) (param : String) : CmdResult :=
  match s.user with
  | none => notLoggedInReply s fs
  | some u =>
    if u.permissions.dirList then
      if fs.isDir (if param = "" then s.workingDirectory
          else toAbsoluteFtpPath s.workingDirectory param) then
        { session := s, fs := fs, code := 226, text := "Done", sent := some [] }
      else ftpReply s fs 550 "Directory not found"
    else ftpReply s fs 550 "Permission denied"

/-- Modelled from the spec: SITE carries no supported subcommands. -/
def handleSITE (fs : Filesystem) (s : Session) : CmdResult :=
  match s.user with
  | none => notLoggedInReply s fs
  | some _ => ftpReply s fs 502 "Not implemented"

/-- Modelled from the spec: SYST reports the system type. -/
def handleSYST (fs : Filesystem) (s : Session) : CmdResult :=
  match s.user with
  | none => notLoggedInReply s fs
  | some _ => ftpReply s fs 215 "UNIX Type: L8"

/-- Modelled from the spec: STAT is not implemented. -/
def handleSTAT (fs : Filesystem) (s : Session) : CmdResult :=
  match s.user with
  | none => notLoggedInReply s fs
  | some _ => ftpReply s fs 502 "Not implemented"

/-- Modelled from the spec: HELP is available without login. -/
def handleHELP (fs : Filesystem) (s : Session) : CmdResult :=
  ftpReply s fs 214 "Help"

/-- Modelled from the spec: NOOP is available without login. -/
def handleNOOP (fs : Filesystem) (s : Session) : CmdResult :=
  ftpReply s fs 200 "OK"

/-- Modelled from the spec: FEAT lists the SIZE and REST STREAM features and
is available without login. -/
def handleFEAT (fs : Filesystem) (s : Session) : CmdResult :=
  ftpReply s fs 211 "Features"

/-- Modelled from the spec: no OPTS option is recognized. -/
def handleOPTS (fs : Filesystem) (s : Session) : CmdResult :=
  match s.user with
  | none => notLoggedInReply s fs
  | some _ => ftpReply s fs 501 "Unrecognized option"

/-- The commands the session recognizes, from the handler list of
`ftp_session.h`. -/
def knownCommands : List String :=
  ["USER", "PASS", "ACCT", "CWD", "CDUP", "REIN", "QUIT", "PORT", "PASV", "TYPE",
   "STRU", "MODE", "RETR", "SIZE", "STOR", "STOU", "APPE", "ALLO", "REST", "RNFR",
   "RNTO", "ABOR", "DELE", "RMD", "MKD", "PWD", "LIST", "NLST", "SITE", "SYST",
   "STAT", "HELP", "NOOP", "FEAT", "OPTS"]

/-- The commands the spec exempts from the pre-login 530 rejection. -/
def preLoginCommands : List String :=
  ["USER", "PASS", "ACCT", "QUIT", "FEAT", "NOOP", "HELP"]

/-- Modelled from the spec: the dispatch table of
`FtpSession::handleFtpCommand` — each recognized command word is routed to
its handler, any other word is answered 500. -/
def dispatchCommand (db : UserDatabase) (fs : Filesystem) (s : Session)
    (cmd param : String) (incoming : List Nat) : CmdResult :=
  match cmd with
  | "USER" => handleUSER db fs s param
  | "PASS" => handlePASS db fs s param
  | "ACCT" => handleACCT fs s
  | "CWD" => handleCWD fs s param
  | "CDUP" => handleCDUP fs s
  | "REIN" => handleREIN fs s
  | "QUIT" => handleQUIT fs s
  | "PORT" => handlePORT fs s
  | "PASV" => handlePASV fs s
  | "TYPE" => handleTYPE fs s param
  | "STRU" => handleSTRU fs s param
  | "MODE" => handleMODE fs s param
  | "RETR" => handleRETR fs s param
  | "SIZE" => handleSIZE fs s param
  | "STOR" => handleSTOR fs s param incoming
  | "STOU" => handleSTOU fs s incoming
  | "APPE" => handleAPPE fs s param incoming
  | "ALLO" => handleALLO fs s
  | "REST" => handleREST fs s param
  | "RNFR" => handleRNFR fs s param
  | "RNTO" => handleRNTO fs s param
  | "ABOR" => handleABOR fs s
  | "DELE" => handleDELE fs s param
  | "RMD" => handleRMD fs s param
  | "MKD" => handleMKD fs s param
  | "PWD" => handlePWD fs s
  | "LIST" => handleLIST fs s param
  | "NLST" => handleNLST fs s param
  | "SITE" => handleSITE fs s
  | "SYST" => handleSYST fs s
  | "STAT" => handleSTAT fs s
  | "HELP" => handleHELP fs s
  | "NOOP" => handleNOOP fs s
  | "FEAT" => handleFEAT fs s
  | "OPTS" => handleOPTS fs s
  | _ => ftpReply s fs 500 "Unrecognized command"

/-- Modelled from the spec: one full command round of
`FtpSession::handleFtpCommand`, including the rule that the pending rename
source survives only an RNFR command and is cleared after every other
command. -/
def handleCommand (db : UserDatabase) (fs : Filesystem) (s : Session)
    (cmd param : String) (incoming : List Nat) : CmdResult :=
  let r := dispatchCommand db fs s cmd param incoming
  if cmd = "RNFR" then r
  else { r with session := { r.session with renameFrom := none } }

/-! ### Observer-callback trace model (spec sections 4.5 and 5) -/

/-- One inbound command line together with the data-channel payload it
carries when it is a store command. -/
structure CommandInput where
  cmd : String
  param : String
  incoming : List Nat

/-- The observable events of the control loop: a command being dispatched, a
reply being enqueued on the output queue, and the observer callback being
invoked. -/
inductive SessionEvent where
  | dispatchEvent (cmd param : String)
  | enqueueReply (code : Nat) (text : String)
  | observerCallback (cmd param : String) (code : Nat) (text : String)
deriving DecidableEq

/-- Modelled from the spec: the event block of a single command — dispatch,
then the reply enqueue, then the observer callback with the same tuple. -/
def stepTrace (db : UserDatabase) (st : Filesystem × Session) (inp : CommandInput) :
    List SessionEvent × (Filesystem × Session) :=
  ([SessionEvent.dispatchEvent inp.cmd inp.param,
    SessionEvent.enqueueReply (handleCommand db st.1 st.2 inp.cmd inp.param inp.incoming).code
      (handleCommand db st.1 st.2 inp.cmd inp.param inp.incoming).text,
    SessionEvent.observerCallback inp.cmd inp.param
      (handleCommand db st.1 st.2 inp.cmd inp.param inp.incoming).code
      (handleCommand db st.1 st.2 inp.cmd inp.param inp.incoming).text],
   ((handleCommand db st.1 st.2 inp.cmd inp.param inp.incoming).fs,
    (handleCommand db st.1 st.2 inp.cmd inp.param inp.incoming).session))

/-- Modelled from the spec: the serialized control loop — commands are read
one at a time and each produces its event block before the next command is
dispatched. -/
def runTrace (db : UserDatabase) (st : Filesystem × Session) : List CommandInput → List SessionEvent
  | [] => []
  | inp :: rest => (stepTrace db st inp).1 ++ runTrace db (stepTrace db st inp).2 rest

/-! ### Server facade port model (`FtpServer` constructor and `getPort`) -/

/-- Modelled from the spec: the facade's port state — the configured control
port and, once started, the port the acceptor is actually bound to. -/
structure FtpServerModel where
  configuredPort : Nat
  boundPort : Option Nat

/-- Creates an unstarted server configured for the given port. -/
def makeServer (port : Nat) : FtpServerModel :=
  ⟨port, none⟩

/-- Modelled from the spec: starting the server binds the acceptor — to the
configured port when it is non-zero, otherwise to the free port chosen by the
operating system (passed here as an oracle argument). -/
def startServer (server : FtpServerModel) (osChosenPort : Nat) : FtpServerModel :=
  { server with
    boundPort := some (if server.configuredPort = 0 then osChosenPort else server.configuredPort) }

/-- Modelled from the spec: `FtpServer::getPort` reports the bound port of a
started server. -/
def getPort (server : FtpServerModel) : Nat :=
  (server.boundPort).getD server.configuredPort

/-! ### Concrete fixtures used to instantiate the theorems -/

/-- A filesystem with no entries. -/
def emptyFilesystem : Filesystem :=
  ⟨fun _ => false, fun _ => none⟩

/-- A sample user holding every permission. -/
def sampleUser : UserRecord :=
  ⟨"secret", "/srv/root", Permissions.all⟩

/-- A session logged in as the sample user. -/
def sampleSession : Session :=
  { initialSession with user := some sampleUser }

/-- The sample session after `TYPE I`. -/
def sampleBinarySession : Session :=
  { sampleSession with dataTypeBinary := true }

/-- A sample filesystem: the root and one directory exist, together with one
four-byte regular file. -/
def sampleFilesystem : Filesystem :=
  ⟨fun p => p == "/" || p == "/a", fun p => if p == "/f" then some [1, 2, 3, 4] else none⟩

/-- A sample user holding every permission except FileRead. -/
def sampleNoReadUser : UserRecord :=
  ⟨"secret", "/srv/root", ⟨false, true, true, true, true, true, true, true, true⟩⟩

/-- A binary-type session logged in as the user without FileRead. -/
def sampleNoReadBinarySession : Session :=
  { initialSession with user := some sampleNoReadUser, dataTypeBinary := true }

/-! ### Path-mapper lemmas -/

theorem absSegments_of_abs (wd input : String) (h : isAbsolutePath input = true) :
    absSegments wd input = normalizeSegments (splitSlash input) := by
  simp [absSegments, h]

theorem toAbsoluteFtpPath_of_abs (wd input : String) (h : isAbsolutePath input = true) :
    toAbsoluteFtpPath wd input = joinFtp (normalizeSegments (splitSlash input)) := by
  unfold toAbsoluteFtpPath
  rw [absSegments_of_abs wd input h]

theorem absSegments_of_rel (wd input : String) (h : isAbsolutePath input = false) :
    absSegments wd input = normalizeSegments (splitSlash (wd ++ "/" ++ input)) := by
  simp [absSegments, h]

theorem plainSeg_foldl_normStep :
    ∀ (segs acc : List String), (∀ s ∈ acc, plainSeg s) →
      ∀ s ∈ List.foldl normStep acc segs, plainSeg s := by
  intro segs
  induction segs with
  | nil => intro acc hacc; simpa using hacc
  | cons seg rest ih =>
    intro acc hacc
    rw [List.foldl_cons]
    apply ih
    intro s hs
    unfold normStep at hs
    by_cases h1 : seg = "" ∨ seg = "."
    · rw [if_pos h1] at hs
      exact hacc s hs
    · rw [if_neg h1] at hs
      by_cases h2 : seg = ".."
      · rw [if_pos h2] at hs
        exact hacc s ((List.dropLast_sublist acc).subset hs)
      · rw [if_neg h2] at hs
        rcases List.mem_append.mp hs with h | h
        · exact hacc s h
        · rcases List.mem_singleton.mp h with rfl
          exact ⟨fun he => h1 (Or.inl he), fun he => h1 (Or.inr he), h2⟩

theorem plainSeg_of_mem_normalizeSegments (segs : List String) :
    ∀ s ∈ normalizeSegments segs, plainSeg s :=
  plainSeg_foldl_normStep segs [] (by intro s hs; exact absurd hs (List.not_mem_nil s))

theorem foldl_normStep_plain :
    ∀ (l acc : List String), (∀ s ∈ l, plainSeg s) → List.foldl normStep acc l = acc ++ l := by
  intro l
  induction l with
  | nil => intro acc _; simp
  | cons seg rest ih =>
    intro acc h
    have hseg := h seg (List.mem_cons_self seg rest)
    rw [List.foldl_cons]
    have hstep : normStep acc seg = acc ++ [seg] := by
      unfold normStep
      rw [if_neg, if_neg hseg.2.2]
      rintro (he | he)
      · exact hseg.1 he
      · exact hseg.2.1 he
    rw [hstep, ih (acc ++ [seg]) (fun s hs => h s (List.mem_cons_of_mem _ hs))]
    simp

theorem canonical_toLocalComponents (rootComps : List String) (wd input : String)
    (hroot : ∀ s ∈ rootComps, plainSeg s) :
    canonicalComponents (toLocalComponents rootComps wd input)
      = rootComps ++ absSegments wd input := by
  unfold canonicalComponents toLocalComponents normalizeSegments
  rw [List.foldl_append]
  rw [show List.foldl normStep [] rootComps = rootComps by
    simpa using foldl_normStep_plain rootComps [] hroot]
  exact foldl_normStep_plain _ rootComps
    (fun s hs => plainSeg_of_mem_normalizeSegments _ s hs)

theorem toAbsoluteFtpPath_root_clamp (wd : String) : toAbsoluteFtpPath wd "/.." = "/" := by
  rw [toAbsoluteFtpPath_of_abs wd "/.." rfl]
  decide

/-! ### Claim theorems -/

/-- Claim C1: for every user root (given by its canonical component list),
every working directory and every client-supplied path argument, the local
path produced by the path mapper has the user's root as a prefix of its
canonical components; an input that would escape the root is clamped to the
root (the escaping argument "/.." resolves to "/"), and CWD on such an input
is answered 250 with the working directory at the root, not with a hard
error. -/
theorem c1_local_path_under_root (rootComps : List String) (wd input : String)
    (fs : Filesystem) (s : Session)
    (hroot : ∀ seg ∈ rootComps, plainSeg seg)
    (hdir : fs.isDir "/" = true) :
    rootComps <+: canonicalComponents (toLocalComponents rootComps wd input)
      ∧ toAbsoluteFtpPath wd "/.." = "/"
      ∧ (executeCWD fs s "/..").code = 250
      ∧ (executeCWD fs s "/..").session.workingDirectory = "/" := by
  refine ⟨?_, toAbsoluteFtpPath_root_clamp wd, ?_, ?_⟩
  · rw [canonical_toLocalComponents rootComps wd input hroot]
    exact List.prefix_append rootComps (absSegments wd input)
  · simp [executeCWD, toAbsoluteFtpPath_root_clamp, hdir, ftpReply]
  · simp [executeCWD, toAbsoluteFtpPath_root_clamp, hdir, ftpReply]

/-- Witness for C1 at a concrete root, working directory, escaping input and
filesystem. -/
theorem c1_local_path_under_root_witness :
    ["srv", "pub"] <+: canonicalComponents (toLocalComponents ["srv", "pub"] "/d" "../../etc")
      ∧ toAbsoluteFtpPath "/d" "/.." = "/"
      ∧ (executeCWD sampleFilesystem sampleSession "/..").code = 250
      ∧ (executeCWD sampleFilesystem sampleSession "/..").session.workingDirectory = "/" :=
  c1_local_path_under_root ["srv", "pub"] "/d" "../../etc" sampleFilesystem sampleSession
    (by decide) (by decide)

/-- Claim C5: resolving a path argument uses it as-is when it begins with
"/" and joins it to the working directory otherwise, then normalizes by
dropping empty and dot segments and popping on dot-dot clamped at root; the
normalized result carries no empty, dot or dot-dot segment, and in
particular CWD on "/a/b/../c/./" yields working directory "/a/c" from every
starting directory. -/
theorem c5_toAbsoluteFtpPath_normalizes (wd input : String) :
    toAbsoluteFtpPath wd "/a/b/../c/./" = "/a/c"
      ∧ (isAbsolutePath input = true →
          toAbsoluteFtpPath wd input = joinFtp (normalizeSegments (splitSlash input)))
      ∧ (isAbsolutePath input = false →
          toAbsoluteFtpPath wd input
            = joinFtp (normalizeSegments (splitSlash (wd ++ "/" ++ input))))
      ∧ (∀ seg ∈ absSegments wd input, seg ≠ "" ∧ seg ≠ "." ∧ seg ≠ "..")
      ∧ toAbsoluteFtpPath wd "/../../x" = "/x"
      ∧ (∀ fs : Filesystem, ∀ s : Session, fs.isDir "/a/c" = true →
          (executeCWD fs s "/a/b/../c/./").code = 250
            ∧ (executeCWD fs s "/a/b/../c/./").session.workingDirectory = "/a/c") := by
  have hex : ∀ w : String, toAbsoluteFtpPath w "/a/b/../c/./" = "/a/c" := by
    intro w
    rw [toAbsoluteFtpPath_of_abs w "/a/b/../c/./" rfl]
    decide
  refine ⟨hex wd, ?_, ?_, ?_, ?_, ?_⟩
  · intro h
    exact toAbsoluteFtpPath_of_abs wd input h
  · intro h
    unfold toAbsoluteFtpPath
    rw [absSegments_of_rel wd input h]
  · exact fun seg hs => plainSeg_of_mem_normalizeSegments _ seg hs
  · rw [toAbsoluteFtpPath_of_abs wd "/../../x" rfl]
    decide
  · intro fs s hdir
    constructor
    · simp [executeCWD, hex, hdir, ftpReply]
    · simp [executeCWD, hex, hdir, ftpReply]

/-- Witness for C5 at a concrete working directory, argument and
filesystem. -/
theorem c5_toAbsoluteFtpPath_normalizes_witness :
    toAbsoluteFtpPath "/start" "b/./x" = "/start/b/x"
      ∧ (executeCWD ⟨fun p => p == "/a/c", fun _ => none⟩ sampleSession "/a/b/../c/./").code
          = 250 :=
  ⟨by
    rw [(c5_toAbsoluteFtpPath_normalizes "/start" "b/./x").2.2.1 rfl]
    rfl,
   (((c5_toAbsoluteFtpPath_normalizes "/start" "b/./x").2.2.2.2.2
      ⟨fun p => p == "/a/c", fun _ => none⟩ sampleSession (by decide)).1)⟩

/-- Claim C9: executing CWD with an absolute, normalized path naming an
existing directory sets the working directory to exactly that path from
every starting session of the logged-in user, keeps the user logged in, and
therefore leaves the working directory unchanged when the command is
repeated any number of times. -/
theorem c9_cwd_absolute_idempotent (db : UserDatabase) (fs : Filesystem) (x : String)
    (u : UserRecord)
    (habs : isAbsolutePath x = true)
    (hnorm : joinFtp (normalizeSegments (splitSlash x)) = x)
    (hdir : fs.isDir x = true) :
    ∀ s : Session, s.user = some u →
      (handleCommand db fs s "CWD" x []).code = 250
        ∧ (handleCommand db fs s "CWD" x []).session.workingDirectory = x
        ∧ (handleCommand db fs s "CWD" x []).session.user = some u := by
  intro s hs
  have htarget : toAbsoluteFtpPath s.workingDirectory x = x := by
    rw [toAbsoluteFtpPath_of_abs s.workingDirectory x habs, hnorm]
  refine ⟨?_, ?_, ?_⟩ <;>
    simp [handleCommand, dispatchCommand, handleCWD, executeCWD, hs, htarget, hdir, ftpReply]

/-- Witness for C9: the sample session enters the existing directory "/a"
and the result is the literal working directory "/a". -/
theorem c9_cwd_absolute_idempotent_witness :
    (handleCommand emptyDatabase sampleFilesystem sampleSession "CWD" "/a" []).code = 250
      ∧ (handleCommand emptyDatabase sampleFilesystem sampleSession "CWD" "/a"
            []).session.workingDirectory = "/a"
      ∧ (handleCommand emptyDatabase sampleFilesystem sampleSession "CWD" "/a"
            []).session.user = some sampleUser :=
  c9_cwd_absolute_idempotent emptyDatabase sampleFilesystem "/a" sampleUser (by decide)
    (by decide) (by decide) sampleSession rfl

/-- Claim C2 (amended): for a session with no logged-in user, every received
command that the server recognizes, other than USER, PASS, ACCT, QUIT, FEAT,
NOOP and HELP, is answered with reply code 530. -/
theorem c2_pre_login_rejected (db : UserDatabase) (fs : Filesystem) (s : Session)
    (cmd param : String) (incoming : List Nat)
    (hu : s.user = none)
    (hknown : cmd ∈ knownCommands)
    (hexempt : cmd ∉ preLoginCommands) :
    (handleCommand db fs s cmd param incoming).code = 530 := by
  obtain ⟨su, sl, swd, srf, sro, sdb, ssr⟩ := s
  obtain rfl : su = none := hu
  simp only [knownCommands, List.mem_cons, List.not_mem_nil, or_false] at hknown
  rcases hknown with rfl | rfl | rfl | rfl | rfl | rfl | rfl | rfl | rfl | rfl | rfl | rfl |
    rfl | rfl | rfl | rfl | rfl | rfl | rfl | rfl | rfl | rfl | rfl | rfl | rfl | rfl | rfl |
    rfl | rfl | rfl | rfl | rfl | rfl | rfl | rfl
  all_goals first
    | exact absurd (by decide) hexempt
    | rfl

/-- Counterexample for C2 as stated: the unrecognized command word "XYZZ"
received before login is answered 500, not 530, although it is not among the
seven exempted commands. -/
theorem c2_pre_login_rejected_counterexample :
    initialSession.user = none
      ∧ "XYZZ" ∉ preLoginCommands
      ∧ (handleCommand emptyDatabase emptyFilesystem initialSession "XYZZ" "" []).code = 500
      ∧ (handleCommand emptyDatabase emptyFilesystem initialSession "XYZZ" "" []).code ≠ 530 := by
  decide

/-- Witness for C2 at a concrete pre-login session and the recognized
command CWD. -/
theorem c2_pre_login_rejected_witness :
    (handleCommand emptyDatabase emptyFilesystem initialSession "CWD" "x" []).code = 530 :=
  c2_pre_login_rejected emptyDatabase emptyFilesystem initialSession "CWD" "x" [] rfl
    (by decide) (by decide)

/-- Claim C3: for a logged-in session, REST with a well-formed unsigned
integer parameter is answered 350 and stores the offset; the next RETR
streams the file contents from that offset and resets the offset to zero,
and STOR and APPE likewise reset it. -/
theorem c3_rest_offset (db : UserDatabase) (fs : Filesystem) (s : Session)
    (param p : String) (incoming : List Nat) (n : Nat) (u : UserRecord)
    (contents : List Nat)
    (hu : s.user = some u)
    (hparse : parseUInt param = some n)
    (hread : u.permissions.fileRead = true)
    (hwrite : u.permissions.fileWrite = true)
    (happend : u.permissions.fileAppend = true)
    (hfile : fs.fileContents (toAbsoluteFtpPath s.workingDirectory p) = some contents) :
    (handleCommand db fs s "REST" param []).code = 350
      ∧ (handleCommand db fs s "REST" param []).session.restartOffset = n
      ∧ (handleCommand db (handleCommand db fs s "REST" param []).fs
            (handleCommand db fs s "REST" param []).session "RETR" p []).sent
          = some (contents.drop n)
      ∧ (handleCommand db (handleCommand db fs s "REST" param []).fs
            (handleCommand db fs s "REST" param []).session "RETR" p
            []).session.restartOffset = 0
      ∧ (handleCommand db (handleCommand db fs s "REST" param []).fs
            (handleCommand db fs s "REST" param []).session "RETR" p []).code = 226
      ∧ (handleCommand db (handleCommand db fs s "REST" param []).fs
            (handleCommand db fs s "REST" param []).session "STOR" p
            incoming).session.restartOffset = 0
      ∧ (handleCommand db (handleCommand db fs s "REST" param []).fs
            (handleCommand db fs s "REST" param []).session "APPE" p
            incoming).session.restartOffset = 0 := by
  refine ⟨?_, ?_, ?_, ?_, ?_, ?_, ?_⟩ <;>
    simp [handleCommand, dispatchCommand, handleREST, handleRETR, handleSTOR, handleAPPE,
      hu, hparse, hread, hwrite, happend, hfile, ftpReply]

/-- Witness for C3: REST 2 followed by RETR of the sample four-byte file
streams the bytes from offset 2. -/
theorem c3_rest_offset_witness :
    (handleCommand emptyDatabase
        (handleCommand emptyDatabase sampleFilesystem sampleSession "REST" "2" []).fs
        (handleCommand emptyDatabase sampleFilesystem sampleSession "REST" "2" []).session
        "RETR" "/f" []).sent
      = some (List.drop 2 [1, 2, 3, 4]) :=
  (c3_rest_offset emptyDatabase sampleFilesystem sampleSession "2" "/f" [9] 2 sampleUser
    [1, 2, 3, 4] rfl (by decide) (by decide) (by decide) (by decide) (by decide)).2.2.1

/-- Claim C4: the rename source is set only by a successful RNFR (answered
350); RNTO immediately after it performs the rename and replies 250; every
command other than RNFR leaves the rename source cleared; RNTO with no
stored source is answered 503, in particular RNTO after RNFR with an
intervening NOOP. -/
theorem c4_rename_from (db : UserDatabase) (fs : Filesystem) (s : Session)
    (p q x y : String) (inc : List Nat) (u : UserRecord)
    (hu : s.user = some u)
    (hren : pathIsRenamable fs u (toAbsoluteFtpPath s.workingDirectory p) = true) :
    (handleCommand db fs s "RNFR" p []).code = 350
      ∧ (handleCommand db fs s "RNFR" p []).session.renameFrom
          = some (toAbsoluteFtpPath s.workingDirectory p)
      ∧ (handleCommand db fs (handleCommand db fs s "RNFR" p []).session "RNTO" q []).code
          = 250
      ∧ (handleCommand db fs (handleCommand db fs s "RNFR" p
            []).session "RNTO" q []).fs.fileContents (toAbsoluteFtpPath s.workingDirectory q)
          = fs.fileContents (toAbsoluteFtpPath s.workingDirectory p)
      ∧ (∀ cmd param2, cmd ≠ "RNFR" →
          (handleCommand db fs s cmd param2 inc).session.renameFrom = none)
      ∧ (∀ s2 : Session, s2.user = some u → s2.renameFrom = none →
          (handleCommand db fs s2 "RNTO" y []).code = 503)
      ∧ (handleCommand db fs
            (handleCommand db fs (handleCommand db fs s "RNFR" p []).session "NOOP" x
              []).session "RNTO" q []).code = 503 := by
  refine ⟨?_, ?_, ?_, ?_, ?_, ?_, ?_⟩
  · simp [handleCommand, dispatchCommand, handleRNFR, hu, hren, ftpReply]
  · simp [handleCommand, dispatchCommand, handleRNFR, hu, hren, ftpReply]
  · simp [handleCommand, dispatchCommand, handleRNFR, handleRNTO, hu, hren, ftpReply]
  · simp [handleCommand, dispatchCommand, handleRNFR, handleRNTO, hu, hren, ftpReply,
      renameEntry]
  · intro cmd param2 hcmd
    simp [handleCommand, hcmd]
  · intro s2 hs2 hr2
    simp [handleCommand, dispatchCommand, handleRNTO, hs2, hr2, ftpReply]
  · simp [handleCommand, dispatchCommand, handleRNFR, handleRNTO, handleNOOP, hu, hren,
      ftpReply]

/-- Witness for C4: renaming the sample file "/f" to "/g" immediately after
RNFR succeeds with reply 250. -/
theorem c4_rename_from_witness :
    (handleCommand emptyDatabase sampleFilesystem
        (handleCommand emptyDatabase sampleFilesystem sampleSession "RNFR" "/f" []).session
        "RNTO" "/g" []).code = 250 :=
  (c4_rename_from emptyDatabase sampleFilesystem sampleSession "/f" "/g" "" "" [] sampleUser
    rfl (by decide)).2.2.1

/-- Counterexample for C6 as stated: a logged-in binary-type session whose
user lacks the FileRead permission issues SIZE on the existing regular file
"/f" and is answered 550 (permission denied), not 213. -/
theorem c6_size_reply_counterexample :
    sampleNoReadBinarySession.user = some sampleNoReadUser
      ∧ sampleNoReadBinarySession.dataTypeBinary = true
      ∧ sampleFilesystem.fileContents
          (toAbsoluteFtpPath sampleNoReadBinarySession.workingDirectory "/f") = some [1, 2, 3, 4]
      ∧ (handleCommand emptyDatabase sampleFilesystem sampleNoReadBinarySession "SIZE" "/f"
          []).code = 550
      ∧ (handleCommand emptyDatabase sampleFilesystem sampleNoReadBinarySession "SIZE" "/f"
          []).code ≠ 213 := by
  decide

/-- Claim C6 (amended): for a logged-in session whose user lacks the
FileRead permission, SIZE is answered 550; with FileRead, SIZE is answered
504 when the session's type is ASCII, and in binary type 213 with the byte
count when the path resolves to a regular file and 550 when it does not. -/
theorem c6_size_reply (db : UserDatabase) (fs : Filesystem) (s : Session) (param : String)
    (u : UserRecord) (hu : s.user = some u) :
    (u.permissions.fileRead = false → (handleCommand db fs s "SIZE" param []).code = 550)
      ∧ (u.permissions.fileRead = true → s.dataTypeBinary = false →
          (handleCommand db fs s "SIZE" param []).code = 504)
      ∧ (∀ contents : List Nat, u.permissions.fileRead = true → s.dataTypeBinary = true →
          fs.fileContents (toAbsoluteFtpPath s.workingDirectory param) = some contents →
            (handleCommand db fs s "SIZE" param []).code = 213
              ∧ (handleCommand db fs s "SIZE" param []).text = toString contents.length)
      ∧ (u.permissions.fileRead = true → s.dataTypeBinary = true →
          fs.fileContents (toAbsoluteFtpPath s.workingDirectory param) = none →
            (handleCommand db fs s "SIZE" param []).code = 550) := by
  refine ⟨?_, ?_, ?_, ?_⟩
  · intro hperm
    simp [handleCommand, dispatchCommand, handleSIZE, hu, hperm, ftpReply]
  · intro hperm hbin
    simp [handleCommand, dispatchCommand, handleSIZE, hu, hperm, hbin, ftpReply]
  · intro contents hperm hbin hfile
    constructor <;>
      simp [handleCommand, dispatchCommand, handleSIZE, hu, hperm, hbin, hfile, ftpReply]
  · intro hperm hbin hfile
    simp [handleCommand, dispatchCommand, handleSIZE, hu, hperm, hbin, hfile, ftpReply]

/-- Witness for C6: SIZE of the four-byte sample file in binary type by a
user holding FileRead is answered 213 with text "4". -/
theorem c6_size_reply_witness :
    (handleCommand emptyDatabase sampleFilesystem sampleBinarySession "SIZE" "/f" []).code = 213
      ∧ (handleCommand emptyDatabase sampleFilesystem sampleBinarySession "SIZE" "/f" []).text
          = toString (List.length [1, 2, 3, 4]) :=
  (c6_size_reply emptyDatabase sampleFilesystem sampleBinarySession "/f" sampleUser rfl).2.2.1
    [1, 2, 3, 4] rfl rfl (by decide)

/-- Claim C7: in the serialized control loop, every parsed command produces
its observer-callback event immediately after its reply-enqueue event and
before any event of the remaining commands; the first event of any nonempty
command sequence is the dispatch of its first command, so the callback
always precedes the next dispatch. -/
theorem c7_observer_callback_order (db : UserDatabase) (st : Filesystem × Session)
    (done : List CommandInput) (inp : CommandInput) (rest : List CommandInput) :
    (∃ st2 : Filesystem × Session, ∃ code : Nat, ∃ text : String,
      runTrace db st (done ++ inp :: rest)
        = runTrace db st done
            ++ SessionEvent.dispatchEvent inp.cmd inp.param
              :: SessionEvent.enqueueReply code text
              :: SessionEvent.observerCallback inp.cmd inp.param code text
              :: runTrace db st2 rest)
      ∧ ∀ (st3 : Filesystem × Session) (inp2 : CommandInput) (rest2 : List CommandInput),
          ∃ tail : List SessionEvent,
            runTrace db st3 (inp2 :: rest2)
              = SessionEvent.dispatchEvent inp2.cmd inp2.param :: tail := by
  constructor
  · induction done generalizing st with
    | nil =>
      exact ⟨(stepTrace db st inp).2,
        (handleCommand db st.1 st.2 inp.cmd inp.param inp.incoming).code,
        (handleCommand db st.1 st.2 inp.cmd inp.param inp.incoming).text, rfl⟩
    | cons d ds ih =>
      obtain ⟨st2, code, text, heq⟩ := ih (stepTrace db st d).2
      refine ⟨st2, code, text, ?_⟩
      show (stepTrace db st d).1 ++ runTrace db (stepTrace db st d).2 (ds ++ inp :: rest)
        = ((stepTrace db st d).1 ++ runTrace db (stepTrace db st d).2 ds) ++ _
      rw [heq, List.append_assoc]
  · intro st3 inp2 rest2
    exact ⟨_, rfl⟩

/-- Claim C8: `addUser` inserts the user and returns true when the username
is absent, returns false leaving the database unchanged when it is present,
and the anonymous aliases "anonymous" and "ftp" reserve one shared slot, so
adding either one makes a later add of either alias return false. -/
theorem c8_addUser_alias (db : UserDatabase) (name pw root pw2 root2 : String)
    (perms perms2 : Permissions) :
    (isAnonymousName name = false → db.users.lookup name = none →
        (addUser db name pw root perms).1 = true
          ∧ (addUser db name pw root perms).2.users.lookup name = some ⟨pw, root, perms⟩)
      ∧ (isAnonymousName name = false → (∃ u, db.users.lookup name = some u) →
          addUser db name pw root perms = (false, db))
      ∧ (isAnonymousName name = true → db.anonymousUser = none →
          (addUser db name pw root perms).1 = true
            ∧ ∀ name2, isAnonymousName name2 = true →
                addUser (addUser db name pw root perms).2 name2 pw2 root2 perms2
                  = (false, (addUser db name pw root perms).2))
      ∧ (isAnonymousName name = true → (∃ u, db.anonymousUser = some u) →
          addUser db name pw root perms = (false, db)) := by
  refine ⟨?_, ?_, ?_, ?_⟩
  · intro hanon habsent
    constructor <;> simp [addUser, hanon, habsent, List.lookup]
  · intro hanon hpresent
    obtain ⟨u, hu⟩ := hpresent
    simp [addUser, hanon, hu]
  · intro hanon hempty
    constructor
    · simp [addUser, hanon, hempty]
    · intro name2 hanon2
      simp [addUser, hanon, hanon2, hempty]
  · intro hanon hpresent
    obtain ⟨u, hu⟩ := hpresent
    simp [addUser, hanon, hu]

/-- Witness for C8: after adding "anonymous" to the empty database, adding
"ftp" fails and leaves the database as it was after the first add. -/
theorem c8_addUser_alias_witness :
    addUser (addUser emptyDatabase "anonymous" "" "/srv" Permissions.all).2 "ftp" "x" "/other"
        Permissions.all
      = (false, (addUser emptyDatabase "anonymous" "" "/srv" Permissions.all).2) :=
  ((c8_addUser_alias emptyDatabase "anonymous" "" "/srv" "x" "/other" Permissions.all
    Permissions.all).2.2.1 rfl rfl).2 "ftp" rfl

/-- Claim C10: starting a server configured with a non-zero port binds that
port and `getPort` returns it; starting a server configured with port 0
binds the operating-system-chosen free port, and `getPort` then returns that
non-zero port. -/
theorem c10_getPort_reports_bound (configured osChosen : Nat) (hos : osChosen ≠ 0) :
    (configured ≠ 0 → getPort (startServer (makeServer configured) osChosen) = configured)
      ∧ (configured = 0 →
          getPort (startServer (makeServer configured) osChosen) = osChosen
            ∧ getPort (startServer (makeServer configured) osChosen) ≠ 0) := by
  constructor
  · intro h
    simp [getPort, startServer, makeServer, h]
  · intro h
    refine ⟨?_, ?_⟩ <;> simp [getPort, startServer, makeServer, h, hos]

/-- Witness for C10: a server configured with port 0 whose acceptor the
operating system binds to port 49152 reports port 49152. -/
theorem c10_getPort_reports_bound_witness :
    getPort (startServer (makeServer 0) 49152) = 49152
      ∧ getPort (startServer (makeServer 0) 49152) ≠ 0 :=
  (c10_getPort_reports_bound 0 49152 (by decide)).2 rfl

end FineFtp
